import Mathlib

/-!
Shallow embedding of the zpool control layer of `libzfs-rs`
(`src/zpool/mod.rs`): the error taxonomy and its `kind` projection, the
`from_stderr` diagnostic classifier with its four regex patterns, the
`From<io::Error>` translation, and the `ZpoolEngine` trait's default
(checked) operations built on the unchecked backend primitives.

Machine strings are `String` / `List Char`; fallible operations return
`Except ZpoolError`; the interaction of a checked operation with its
backend is recorded as an explicit trace of backend calls.
-/

namespace LibZfs

/-- Embeds `std::io::ErrorKind` as far as this crate observes it:
`From<io::Error> for ZpoolError` distinguishes only `NotFound` from every
other kind, so the remaining std variants are collapsed into an indexed
constructor. -/
inductive IoErrorKind where
  | NotFound : IoErrorKind
  | OtherKind : Nat → IoErrorKind
deriving DecidableEq, Repr

/-- Embeds `std::io::Error`: a kind plus a diagnostic message. -/
structure IoError where
  kind : IoErrorKind
  msg : String
deriving DecidableEq, Repr

/-- Embeds `ZpoolError` (src/zpool/mod.rs, the `quick_error!` enum):
`CmdNotFound`, `Io(io::Error)`, `PoolNotFound`, `InvalidTopology`,
`VdevReuse(vdev, pool)`, `ParseError`, `DeviceTooSmall`,
`PermissionDenied`, `Other(String)`. -/
inductive ZpoolError where
  | CmdNotFound : ZpoolError
  | Io : IoError → ZpoolError
  | PoolNotFound : ZpoolError
  | InvalidTopology : ZpoolError
  | VdevReuse : String → String → ZpoolError
  | ParseError : ZpoolError
  | DeviceTooSmall : ZpoolError
  | PermissionDenied : ZpoolError
  | Other : String → ZpoolError
deriving DecidableEq, Repr

/-- Embeds `ZpoolErrorKind` (src/zpool/mod.rs): the comparable kind
projection's target type.  Note the source enum also declares a
`DeviceNotFound` variant that `ZpoolError::kind` never produces. -/
inductive ZpoolErrorKind where
  | CmdNotFound : ZpoolErrorKind
  | Io : ZpoolErrorKind
  | PoolNotFound : ZpoolErrorKind
  | DeviceNotFound : ZpoolErrorKind
  | VdevReuse : ZpoolErrorKind
  | InvalidTopology : ZpoolErrorKind
  | ParseError : ZpoolErrorKind
  | DeviceTooSmall : ZpoolErrorKind
  | PermissionDenied : ZpoolErrorKind
  | Other : ZpoolErrorKind
deriving DecidableEq, Repr

/-- Embeds `ZpoolError::kind` (src/zpool/mod.rs lines 67-79). -/
def ZpoolError.kind : ZpoolError → ZpoolErrorKind
  | .CmdNotFound => .CmdNotFound
  | .Io _ => .Io
  | .PoolNotFound => .PoolNotFound
  | .InvalidTopology => .InvalidTopology
  | .VdevReuse _ _ => .VdevReuse
  | .ParseError => .ParseError
  | .DeviceTooSmall => .DeviceTooSmall
  | .PermissionDenied => .PermissionDenied
  | .Other _ => .Other

/-- The constructor tag of a `ZpoolError`: blind to every payload.  Used
to state that `kind` is derivable without inspecting payloads. -/
def ZpoolError.ctorTag : ZpoolError → Nat
  | .CmdNotFound => 0
  | .Io _ => 1
  | .PoolNotFound => 2
  | .InvalidTopology => 3
  | .VdevReuse _ _ => 4
  | .ParseError => 5
  | .DeviceTooSmall => 6
  | .PermissionDenied => 7
  | .Other _ => 8

/-- Embeds `impl From<io::Error> for ZpoolError` (src/zpool/mod.rs lines
114-121): `NotFound` becomes `CmdNotFound`, everything else is wrapped in
`Io`. -/
def ZpoolError.fromIoError (err : IoError) : ZpoolError :=
  match err.kind with
  | .NotFound => .CmdNotFound
  | .OtherKind _ => .Io err

/-!
The four `lazy_static!` regex patterns (src/zpool/mod.rs lines 25-30) use
only literal text, `\S+` (one or more non-whitespace characters, greedy),
and capture groups around `\S+`.  They are embedded as token sequences and
matched with the `regex` crate's semantics: unanchored leftmost search,
greedy `\S+` with backtracking, `\S` the complement of Unicode
`White_Space`.
-/

/-- The `regex` crate's `\s` class (Unicode `White_Space`); `\S` is its
complement. -/
def isSpaceCh (c : Char) : Bool :=
  let n := c.toNat
  (9 ≤ n && n ≤ 13) || n == 32 || n == 133 || n == 160 || n == 5760 ||
    (8192 ≤ n && n ≤ 8202) || n == 8232 || n == 8233 || n == 8239 ||
    n == 8287 || n == 12288

/-- One token of a pattern: a literal character sequence, `\S+`
(capturing when the flag is set), or the internal backtracking state of a
`\S+` whose candidate run length is bounded. -/
inductive Tok where
  | lit : List Char → Tok
  | splus : Bool → Tok
  | splusBound : Nat → Bool → Tok
deriving DecidableEq, Repr

/-- Match a token sequence at the start of `s`, returning the list of
captured substrings on success.  `\S+` is greedy: the longest candidate
run is tried first and shortened on failure, exactly the backtracking
priority of the `regex` crate on these patterns.  The fuel argument only
drives structural recursion; `matchToksAt` supplies enough for the
recursion never to be cut off. -/
def matchToks : Nat → List Tok → List Char → Option (List (List Char))
  | 0, _, _ => none
  | _ + 1, [], _ => some []
  | fuel + 1, Tok.lit l :: ts, s =>
    if l.isPrefixOf s then matchToks fuel ts (s.drop l.length) else none
  | fuel + 1, Tok.splus cap :: ts, s =>
    matchToks fuel
      (Tok.splusBound (s.takeWhile (fun c => !(isSpaceCh c))).length cap :: ts) s
  | _ + 1, Tok.splusBound 0 _ :: _, _ => none
  | fuel + 1, Tok.splusBound (k + 1) cap :: ts, s =>
    match matchToks fuel ts (s.drop (k + 1)) with
    | some caps => some (if cap then s.take (k + 1) :: caps else caps)
    | none => matchToks fuel (Tok.splusBound k cap :: ts) s

/-- Every chain of recursive calls in `matchToks` consumes, per original
token, at most one step for a literal, or `1 + (run length + 1)` steps for
a `\S+`; this fuel is therefore never exhausted. -/
def matchToksAt (toks : List Tok) (s : List Char) :
    Option (List (List Char)) :=
  matchToks (toks.length * (s.length + 2) + 1) toks s

/-- Unanchored leftmost search: try a match at every start position, left
to right, returning the captures of the leftmost match — the `regex`
crate's `captures` (and, via `Option.isSome`, its `is_match`). -/
def reSearch (toks : List Tok) : List Char → Option (List (List Char))
  | [] => matchToksAt toks []
  | s@(_ :: rest) =>
    match matchToksAt toks s with
    | some caps => some caps
    | none => reSearch toks rest

/-- The `regex` crate's `is_match` over a token pattern. -/
def reIsMatch (toks : List Tok) (s : List Char) : Bool :=
  (reSearch toks s).isSome

/-- A single-quote character (written by code point to keep pattern and
fixture literals free of quoting). -/
def squote : Char := Char.ofNat 39

/-- `RE_REUSE_VDEV_ZOL` (src/zpool/mod.rs line 26):
`cannot create \S+: one or more vdevs refer to the same device, or one
of\nthe devices is part of an active md or lvm device\n`. -/
def RE_REUSE_VDEV_ZOL : List Tok :=
  [Tok.lit "cannot create ".data, Tok.splus false,
   Tok.lit (": one or more vdevs refer to the same device, or one of\nthe devices is part of an active md or lvm device\n").data]

/-- `RE_REUSE_VDEV` (src/zpool/mod.rs line 27):
`following errors:\n(\S+) is part of active pool '(\S+)'`. -/
def RE_REUSE_VDEV : List Tok :=
  [Tok.lit "following errors:\n".data, Tok.splus true,
   Tok.lit (" is part of active pool ".data ++ [squote]), Tok.splus true,
   Tok.lit [squote]]

/-- `RE_TOO_SMALL` (src/zpool/mod.rs line 28):
`cannot create \S+: one or more devices is less than the minimum size \S+`. -/
def RE_TOO_SMALL : List Tok :=
  [Tok.lit "cannot create ".data, Tok.splus false,
   Tok.lit ": one or more devices is less than the minimum size ".data,
   Tok.splus false]

/-- `RE_PERMISSION_DENIED` (src/zpool/mod.rs line 29):
`cannot create \S+: permission denied\n`. -/
def RE_PERMISSION_DENIED : List Tok :=
  [Tok.lit "cannot create ".data, Tok.splus false,
   Tok.lit ": permission denied\n".data]

/-- Embeds `ZpoolError::from_stderr` (src/zpool/mod.rs lines 125-142)
after the lossy UTF-8 decode: `String::from_utf8_lossy` is a total std
function, so the argument here is the decoded text.  The source guards
`captures().unwrap()` by `is_match` on the same pattern; since `captures`
is `some` exactly when `is_match` holds, both collapse into one match on
`reSearch`.  `RE_REUSE_VDEV` has two capture groups, so on success the
capture list holds the vdev path at index 0 and the pool name at index 1
(the source's groups 1 and 2). -/
def ZpoolError.from_stderr (stderr : List Char) : ZpoolError :=
  match reSearch RE_REUSE_VDEV stderr with
  | some caps =>
    ZpoolError.VdevReuse (String.mk (caps.getD 0 []))
      (String.mk (caps.getD 1 []))
  | none =>
    if reIsMatch RE_REUSE_VDEV_ZOL stderr then ZpoolError.VdevReuse "" ""
    else if reIsMatch RE_TOO_SMALL stderr then ZpoolError.DeviceTooSmall
    else if reIsMatch RE_PERMISSION_DENIED stderr then
      ZpoolError.PermissionDenied
    else ZpoolError.Other (String.mk stderr)

/-!
The `ZpoolEngine` trait (src/zpool/mod.rs lines 150-290).  The unchecked
primitives are abstract trait methods supplied by a backend; they are
modelled as a record of response functions, and each checked default
method is embedded as a function returning its result together with the
trace of backend calls it issued, in order.
-/

/-- Modelled from the spec: the fail-mode enum, one of the pool's
settable attributes (its concrete constructors live in the repository's
`properties` module, outside `src/`; only its decidable equality is used
here). -/
inductive FailMode where
  | Wait : FailMode
  | Continue : FailMode
  | Panic : FailMode
deriving DecidableEq, Repr

/-- Modelled from the spec: the immutable current-properties snapshot
(`ZpoolProperties`, repository `properties` module, outside `src/`) —
auto-expand flag, auto-replace flag, cache-file path, comment, delegation
flag, fail-mode enum; the spec's further read-only attributes play no
role in `update_properties` and are omitted.  `comment` is an `Option`:
`update_properties` compares it against `None` when the desired comment
is empty (src/zpool/mod.rs lines 233-241). -/
structure ZpoolProperties where
  auto_expand : Bool
  auto_replace : Bool
  cache_file : String
  comment : Option String
  delegation : Bool
  fail_mode : FailMode
deriving DecidableEq, Repr

/-- Modelled from the spec: the desired/write properties record
(`ZpoolPropertiesWrite`, repository `properties` module, outside `src/`),
exposing the accessors `update_properties` reads. -/
structure ZpoolPropertiesWrite where
  auto_expand : Bool
  auto_replace : Bool
  cache_file : String
  comment : String
  delegation : Bool
  fail_mode : FailMode
deriving DecidableEq, Repr

/-- Modelled from the spec: the topology is opaque to this layer and
exposes one structural-validity predicate (`Topology`, repository
`topology` module, outside `src/`). -/
structure Topology where
  suitable_for_create : Bool
deriving DecidableEq, Repr

/-- `Topology::is_suitable_for_create`, the single predicate `create`
consults (src/zpool/mod.rs line 183). -/
def Topology.is_suitable_for_create (t : Topology) : Bool :=
  t.suitable_for_create

/-- Modelled from the spec: a pool status value (`Zpool`, repository
`description` module, outside `src/`) — opaque here, only passed
through by `status`. -/
structure Zpool where
  name : String
deriving DecidableEq, Repr

/-- The value handed to `set_unchecked`: `update_properties` passes the
accessor values of the write record (Bool flags, the cache-file path and
comment strings, the fail-mode enum). -/
inductive PropValue where
  | b : Bool → PropValue
  | s : String → PropValue
  | fm : FailMode → PropValue
deriving DecidableEq, Repr

/-- One backend interaction, recorded in order of issue. -/
inductive BackendCall where
  | existsCall : String → BackendCall
  | createCall : String → Topology → Option ZpoolPropertiesWrite →
      Option String → Option String → BackendCall
  | destroyCall : String → Bool → BackendCall
  | readPropsCall : String → BackendCall
  | setCall : String → String → PropValue → BackendCall
  | exportCall : String → Bool → BackendCall
  | statusCall : String → BackendCall
deriving DecidableEq, Repr

/-- A backend: the trait's required (unchecked) methods, `exists`
included, as response functions.  Mount point and alternate root are
paths, modelled as strings. -/
structure Backend where
  existsFn : String → Except ZpoolError Bool
  createFn : String → Topology → Option ZpoolPropertiesWrite →
    Option String → Option String → Except ZpoolError Unit
  destroyFn : String → Bool → Except ZpoolError Unit
  readPropsFn : String → Except ZpoolError ZpoolProperties
  setFn : String → String → PropValue → Except ZpoolError Unit
  exportFn : String → Bool → Except ZpoolError Unit
  statusFn : String → Except ZpoolError Zpool

/-- A computation against a backend: its result and the trace of backend
calls it issued. -/
def Eff (α : Type) : Type := Except ZpoolError α × List BackendCall

/-- A step issuing no backend call. -/
def effPure {α : Type} (a : α) : Eff α := (Except.ok a, [])

/-- Rust's `?`: on error the computation stops with the error unchanged
(already-issued calls stay in the trace); on success the traces
concatenate. -/
def effBind {α β : Type} (x : Eff α) (f : α → Eff β) : Eff β :=
  match x with
  | (Except.error e, t) => (Except.error e, t)
  | (Except.ok a, t) => ((f a).1, t ++ (f a).2)

/-- Issue `self.exists(name)`. -/
def callExists (B : Backend) (name : String) : Eff Bool :=
  (B.existsFn name, [BackendCall.existsCall name])

/-- Issue `self.create_unchecked(...)`. -/
def callCreate (B : Backend) (name : String) (topology : Topology)
    (props : Option ZpoolPropertiesWrite) (mount altRoot : Option String) :
    Eff Unit :=
  (B.createFn name topology props mount altRoot,
   [BackendCall.createCall name topology props mount altRoot])

/-- Issue `self.destroy_unchecked(name, force)`. -/
def callDestroy (B : Backend) (name : String) (force : Bool) : Eff Unit :=
  (B.destroyFn name force, [BackendCall.destroyCall name force])

/-- Issue `self.read_properties_unchecked(name)`. -/
def callReadProps (B : Backend) (name : String) : Eff ZpoolProperties :=
  (B.readPropsFn name, [BackendCall.readPropsCall name])

/-- Issue `self.set_unchecked(name, key, value)`. -/
def callSet (B : Backend) (name key : String) (v : PropValue) : Eff Unit :=
  (B.setFn name key v, [BackendCall.setCall name key v])

/-- Issue `self.export_unchecked(name, force)`. -/
def callExport (B : Backend) (name : String) (force : Bool) : Eff Unit :=
  (B.exportFn name force, [BackendCall.exportCall name force])

/-- Issue `self.status_unchecked(name)`. -/
def callStatus (B : Backend) (name : String) : Eff Zpool :=
  (B.statusFn name, [BackendCall.statusCall name])

namespace ZpoolEngine

/-- Embeds the default `ZpoolEngine::create` (src/zpool/mod.rs lines
170-187): reject an unsuitable topology with `InvalidTopology` before any
backend call, otherwise delegate to `create_unchecked`. -/
def create (B : Backend) (name : String) (topology : Topology)
    (props : Option ZpoolPropertiesWrite) (mount altRoot : Option String) :
    Eff Unit :=
  if !topology.is_suitable_for_create then
    (Except.error ZpoolError.InvalidTopology, [])
  else callCreate B name topology props mount altRoot

/-- Embeds the default `ZpoolEngine::destroy` (src/zpool/mod.rs lines
192-198). -/
def destroy (B : Backend) (name : String) (force : Bool) : Eff Unit :=
  effBind (callExists B name) fun ex =>
    if !ex then (Except.error ZpoolError.PoolNotFound, [])
    else callDestroy B name force

/-- Embeds the default `ZpoolEngine::read_properties` (src/zpool/mod.rs
lines 202-207). -/
def read_properties (B : Backend) (name : String) : Eff ZpoolProperties :=
  effBind (callExists B name) fun ex =>
    if !ex then (Except.error ZpoolError.PoolNotFound, [])
    else callReadProps B name

/-- Embeds the default `ZpoolEngine::update_properties` (src/zpool/mod.rs
lines 210-252): existence guard, read of the current properties, then one
conditional `set_unchecked` per attribute in source order (auto-expand,
auto-replace, cache-file, comment, delegation, fail-mode) — the comment
is compared against `None` when the desired comment is empty — and a
final re-read. -/
def update_properties (B : Backend) (name : String)
    (props : ZpoolPropertiesWrite) : Eff ZpoolProperties :=
  effBind (callExists B name) fun ex =>
  if !ex then (Except.error ZpoolError.PoolNotFound, []) else
  effBind (callReadProps B name) fun current =>
  effBind (if current.auto_expand ≠ props.auto_expand then
      callSet B name "autoexpand" (PropValue.b props.auto_expand)
    else effPure ()) fun _ =>
  effBind (if current.auto_replace ≠ props.auto_replace then
      callSet B name "autoreplace" (PropValue.b props.auto_replace)
    else effPure ()) fun _ =>
  effBind (if current.cache_file ≠ props.cache_file then
      callSet B name "cachefile" (PropValue.s props.cache_file)
    else effPure ()) fun _ =>
  effBind (if current.comment ≠
        (if props.comment.isEmpty then none else some props.comment) then
      callSet B name "comment" (PropValue.s props.comment)
    else effPure ()) fun _ =>
  effBind (if current.delegation ≠ props.delegation then
      callSet B name "delegation" (PropValue.b props.delegation)
    else effPure ()) fun _ =>
  effBind (if current.fail_mode ≠ props.fail_mode then
      callSet B name "failmode" (PropValue.fm props.fail_mode)
    else effPure ()) fun _ =>
  callReadProps B name

/-- Embeds the default `ZpoolEngine::export` (src/zpool/mod.rs lines
262-267); `export` is a Lean keyword, hence the name. -/
def exportPool (B : Backend) (name : String) (force : Bool) : Eff Unit :=
  effBind (callExists B name) fun ex =>
    if !ex then (Except.error ZpoolError.PoolNotFound, [])
    else callExport B name force

/-- Embeds the default `ZpoolEngine::status` (src/zpool/mod.rs lines
282-287). -/
def status (B : Backend) (name : String) : Eff Zpool :=
  effBind (callExists B name) fun ex =>
    if !ex then (Except.error ZpoolError.PoolNotFound, [])
    else callStatus B name

end ZpoolEngine

/-!
Specification-side definitions: the diff list of the property-update
algorithm (spec §4.3) and the first-match form of the classifier
(spec §4.1), to be compared with the embedded source functions.
-/

/-- The attributes whose current value differs from the desired value,
under each attribute's own equality and in the fixed order auto-expand,
auto-replace, cache-file, comment, delegation, fail-mode, each paired
with the value the algorithm would set; the comment respects the
empty-means-absent equivalence. -/
def diffPairs (current : ZpoolProperties) (props : ZpoolPropertiesWrite) :
    List (String × PropValue) :=
  (if current.auto_expand ≠ props.auto_expand then
    [("autoexpand", PropValue.b props.auto_expand)] else []) ++
  (if current.auto_replace ≠ props.auto_replace then
    [("autoreplace", PropValue.b props.auto_replace)] else []) ++
  (if current.cache_file ≠ props.cache_file then
    [("cachefile", PropValue.s props.cache_file)] else []) ++
  (if current.comment ≠
      (if props.comment.isEmpty then none else some props.comment) then
    [("comment", PropValue.s props.comment)] else []) ++
  (if current.delegation ≠ props.delegation then
    [("delegation", PropValue.b props.delegation)] else []) ++
  (if current.fail_mode ≠ props.fail_mode then
    [("failmode", PropValue.fm props.fail_mode)] else [])

/-- Issue one `set_unchecked` per key/value pair, in order, stopping at
the first failure. -/
def runSets (B : Backend) (name : String) :
    List (String × PropValue) → Eff Unit
  | [] => effPure ()
  | p :: rest => effBind (callSet B name p.1 p.2) fun _ => runSets B name rest

/-- Is this backend call a `set_unchecked` call? -/
def isSetCall : BackendCall → Bool
  | .setCall _ _ _ => true
  | _ => false

/-- Is this backend call a `set_unchecked` call for the given key? -/
def isSetFor (key : String) : BackendCall → Bool
  | .setCall _ k _ => k == key
  | _ => false

/-- The classifier in the spec's form: the ordered list of pattern
matchers of §4.1 — rich vdev-reuse with captures, ZoL vdev-reuse with
empty placeholders, device-too-small, permission-denied. -/
def specClassifiers : List (List Char → Option ZpoolError) :=
  [fun s => (reSearch RE_REUSE_VDEV s).map (fun caps =>
      ZpoolError.VdevReuse (String.mk (caps.getD 0 []))
        (String.mk (caps.getD 1 []))),
   fun s => if reIsMatch RE_REUSE_VDEV_ZOL s then
      some (ZpoolError.VdevReuse "" "") else none,
   fun s => if reIsMatch RE_TOO_SMALL s then
      some ZpoolError.DeviceTooSmall else none,
   fun s => if reIsMatch RE_PERMISSION_DENIED s then
      some ZpoolError.PermissionDenied else none]

/-- First-match classification: the first matcher in the priority list
that matches determines the result; if none matches, the unclassified
variant carries the full decoded text. -/
def classifySpec (s : List Char) : ZpoolError :=
  match List.findSome? (fun m => m s) specClassifiers with
  | some e => e
  | none => ZpoolError.Other (String.mk s)

/-!
Concrete fixtures for evaluating the embedded operations on explicit
inputs: property snapshots, backends, and the diagnostic text of the
repository's `error_parsing` test.
-/

/-- A current-properties snapshot: no comment set, delegation on. -/
def wCurrent : ZpoolProperties where
  auto_expand := false
  auto_replace := false
  cache_file := ""
  comment := none
  delegation := true
  fail_mode := FailMode.Wait

/-- A desired-properties record differing from `wCurrent` in auto-expand,
comment and fail-mode. -/
def wProps : ZpoolPropertiesWrite where
  auto_expand := true
  auto_replace := false
  cache_file := ""
  comment := "hi"
  delegation := true
  fail_mode := FailMode.Panic

/-- A desired-properties record equal to `wCurrent` everywhere, with the
comment left at its empty default. -/
def wEmptyProps : ZpoolPropertiesWrite where
  auto_expand := false
  auto_replace := false
  cache_file := ""
  comment := ""
  delegation := true
  fail_mode := FailMode.Wait

/-- A backend on which the pool exists and every primitive succeeds. -/
def wOkBackend : Backend where
  existsFn := fun _ => Except.ok true
  createFn := fun _ _ _ _ _ => Except.ok ()
  destroyFn := fun _ _ => Except.ok ()
  readPropsFn := fun _ => Except.ok wCurrent
  setFn := fun _ _ _ => Except.ok ()
  exportFn := fun _ _ => Except.ok ()
  statusFn := fun n => Except.ok ⟨n⟩

/-- A backend on which no pool exists. -/
def wNoBackend : Backend where
  existsFn := fun _ => Except.ok false
  createFn := fun _ _ _ _ _ => Except.ok ()
  destroyFn := fun _ _ => Except.ok ()
  readPropsFn := fun _ => Except.ok wCurrent
  setFn := fun _ _ _ => Except.ok ()
  exportFn := fun _ _ => Except.ok ()
  statusFn := fun n => Except.ok ⟨n⟩

/-- A backend whose existence check itself fails with an I/O error. -/
def wExistsErrBackend : Backend where
  existsFn := fun _ =>
    Except.error (ZpoolError.Io ⟨IoErrorKind.OtherKind 0, "boom"⟩)
  createFn := fun _ _ _ _ _ => Except.ok ()
  destroyFn := fun _ _ => Except.ok ()
  readPropsFn := fun _ => Except.ok wCurrent
  setFn := fun _ _ _ => Except.ok ()
  exportFn := fun _ _ => Except.ok ()
  statusFn := fun n => Except.ok ⟨n⟩

/-- A backend on which setting the comment attribute fails and every
other primitive succeeds. -/
def wSetFailBackend : Backend where
  existsFn := fun _ => Except.ok true
  createFn := fun _ _ _ _ _ => Except.ok ()
  destroyFn := fun _ _ => Except.ok ()
  readPropsFn := fun _ => Except.ok wCurrent
  setFn := fun _ key _ =>
    if key == "comment" then Except.error (ZpoolError.Other "boom")
    else Except.ok ()
  exportFn := fun _ _ => Except.ok ()
  statusFn := fun n => Except.ok ⟨n⟩

/-- The vdev-reuse stderr fixture of the repository's `error_parsing`
test (src/zpool/mod.rs line 298). -/
def fxReuse : List Char :=
  "invalid vdev specification\nuse ".data ++ [squote] ++ "-f".data ++
    [squote] ++
    " to override the following errors:\n/vdevs/vdev0 is part of active pool ".data ++
    [squote] ++ "tank".data ++ [squote]

/-! Monad laws of `Eff`, and evaluation lemmas for `runSets`. -/

theorem effPure_bind {α β : Type} (a : α) (f : α → Eff β) :
    effBind (effPure a) f = f a := by
  simp [effBind, effPure]

theorem effBind_assoc {α β γ : Type} (x : Eff α) (f : α → Eff β)
    (g : β → Eff γ) :
    effBind (effBind x f) g = effBind x (fun a => effBind (f a) g) := by
  rcases x with ⟨r, t⟩
  cases r with
  | error e => simp [effBind]
  | ok a =>
    rcases h : f a with ⟨r2, t2⟩
    cases r2 <;> simp [effBind, h]

set_option maxHeartbeats 2000000 in
/-- The straight-line conditional sets of `update_properties` are the
fold of `runSets` over the diff list. -/
theorem update_properties_eq_runSets (B : Backend) (name : String)
    (props : ZpoolPropertiesWrite) :
    ZpoolEngine.update_properties B name props =
      effBind (callExists B name) fun ex =>
      if !ex then (Except.error ZpoolError.PoolNotFound, []) else
      effBind (callReadProps B name) fun current =>
      effBind (runSets B name (diffPairs current props)) fun _ =>
      callReadProps B name := by
  unfold ZpoolEngine.update_properties
  refine congrArg _ (funext fun ex => ?_)
  cases ex with
  | false => rfl
  | true =>
    simp only [Bool.not_true, Bool.false_eq_true, if_false]
    refine congrArg _ (funext fun current => ?_)
    unfold diffPairs
    split_ifs <;>
      simp only [List.nil_append, List.append_nil, List.cons_append,
        List.singleton_append, runSets, effBind_assoc, effPure_bind]

theorem runSets_ok (B : Backend) (name : String)
    (ks : List (String × PropValue))
    (h : ∀ p ∈ ks, B.setFn name p.1 p.2 = Except.ok ()) :
    runSets B name ks =
      (Except.ok (),
       ks.map (fun p => BackendCall.setCall name p.1 p.2)) := by
  induction ks with
  | nil => rfl
  | cons p rest ih =>
    have hp : B.setFn name p.1 p.2 = Except.ok () := h p (List.mem_cons_self p rest)
    have hrest : ∀ q ∈ rest, B.setFn name q.1 q.2 = Except.ok () :=
      fun q hq => h q (List.mem_cons_of_mem p hq)
    simp [runSets, effBind, callSet, hp, ih hrest]

theorem runSets_err (B : Backend) (name : String)
    (pre : List (String × PropValue)) (k : String) (v : PropValue)
    (post : List (String × PropValue)) (e : ZpoolError)
    (hpre : ∀ p ∈ pre, B.setFn name p.1 p.2 = Except.ok ())
    (hk : B.setFn name k v = Except.error e) :
    runSets B name (pre ++ (k, v) :: post) =
      (Except.error e,
       (pre ++ [(k, v)]).map (fun p => BackendCall.setCall name p.1 p.2)) := by
  induction pre with
  | nil => simp [runSets, effBind, callSet, hk]
  | cons p rest ih =>
    have hp : B.setFn name p.1 p.2 = Except.ok () := hpre p (List.mem_cons_self p rest)
    have hrest : ∀ q ∈ rest, B.setFn name q.1 q.2 = Except.ok () :=
      fun q hq => hpre q (List.mem_cons_of_mem p hq)
    simp [runSets, effBind, callSet, hp, ih hrest]

/-- Happy path of `update_properties`: the pool exists, the read yields
`current`, and every set call for a differing attribute succeeds.  The
result is the re-read snapshot and the trace is the existence check, the
read, one set per differing attribute in the fixed order, and the
re-read. -/
theorem update_properties_ok (B : Backend) (name : String)
    (props : ZpoolPropertiesWrite) (current : ZpoolProperties)
    (hex : B.existsFn name = Except.ok true)
    (hrd : B.readPropsFn name = Except.ok current)
    (hset : ∀ p ∈ diffPairs current props,
      B.setFn name p.1 p.2 = Except.ok ()) :
    ZpoolEngine.update_properties B name props =
      (Except.ok current,
       BackendCall.existsCall name :: BackendCall.readPropsCall name ::
        ((diffPairs current props).map
           (fun p => BackendCall.setCall name p.1 p.2) ++
         [BackendCall.readPropsCall name])) := by
  rw [update_properties_eq_runSets]
  simp [effBind, callExists, hex, callReadProps, hrd,
    runSets_ok B name (diffPairs current props) hset]

/-- Failing path of `update_properties`: the pool exists, the read yields
`current`, the sets before `(k, v)` in the diff list succeed and the set
for `(k, v)` fails with `e`.  The error is returned and the trace stops
at the failing set: no later set, no rollback, no re-read. -/
theorem update_properties_err (B : Backend) (name : String)
    (props : ZpoolPropertiesWrite) (current : ZpoolProperties)
    (pre : List (String × PropValue)) (k : String) (v : PropValue)
    (post : List (String × PropValue)) (e : ZpoolError)
    (hex : B.existsFn name = Except.ok true)
    (hrd : B.readPropsFn name = Except.ok current)
    (hsplit : diffPairs current props = pre ++ (k, v) :: post)
    (hpre : ∀ p ∈ pre, B.setFn name p.1 p.2 = Except.ok ())
    (hk : B.setFn name k v = Except.error e) :
    ZpoolEngine.update_properties B name props =
      (Except.error e,
       BackendCall.existsCall name :: BackendCall.readPropsCall name ::
        (pre ++ [(k, v)]).map (fun p => BackendCall.setCall name p.1 p.2)) := by
  rw [update_properties_eq_runSets]
  simp [effBind, callExists, hex, callReadProps, hrd, hsplit,
    runSets_err B name pre k v post e hpre hk]

/-- Filtering the set calls out of a list made only of set calls is the
identity. -/
theorem filter_isSetCall_map (name : String)
    (l : List (String × PropValue)) :
    (l.map (fun p => BackendCall.setCall name p.1 p.2)).filter isSetCall =
      l.map (fun p => BackendCall.setCall name p.1 p.2) := by
  induction l with
  | nil => rfl
  | cons p r ih => simp [isSetCall, ih]

/-- Counting set calls for a key over a list of set calls counts the
pairs carrying that key. -/
theorem countP_setFor_map (key name : String)
    (l : List (String × PropValue)) :
    (l.map (fun p => BackendCall.setCall name p.1 p.2)).countP
        (isSetFor key) =
      l.countP (fun p => p.1 == key) := by
  induction l with
  | nil => rfl
  | cons p r ih => simp [List.countP_cons, isSetFor, ih]

/-- Counting over a conditional singleton. -/
theorem countP_ite_singleton {α : Type} (c : Prop) [Decidable c]
    (x : α) (p : α → Bool) :
    (if c then [x] else []).countP p =
      if c then (if p x then 1 else 0) else 0 := by
  split <;> simp [List.countP_cons]

/-- The diff list contains a pair for the comment attribute exactly when
the current comment differs from the empty-means-absent reading of the
desired comment. -/
theorem diffPairs_comment_count (current : ZpoolProperties)
    (props : ZpoolPropertiesWrite) :
    (diffPairs current props).countP (fun p => p.1 == "comment") =
      if current.comment ≠
          (if props.comment.isEmpty then none else some props.comment) then
        1 else 0 := by
  unfold diffPairs
  simp only [List.countP_append, countP_ite_singleton]
  have h1 : (("autoexpand" : String) == "comment") = false := by decide
  have h2 : (("autoreplace" : String) == "comment") = false := by decide
  have h3 : (("cachefile" : String) == "comment") = false := by decide
  have h4 : (("comment" : String) == "comment") = true := by decide
  have h5 : (("delegation" : String) == "comment") = false := by decide
  have h6 : (("failmode" : String) == "comment") = false := by decide
  simp [h1, h2, h3, h4, h5, h6]

/-- On the happy path, `update_properties` issues one set call for the
comment attribute exactly when the current comment differs from the
empty-means-absent reading of the desired one. -/
theorem update_properties_comment_count (B : Backend) (name : String)
    (props : ZpoolPropertiesWrite) (current : ZpoolProperties)
    (hex : B.existsFn name = Except.ok true)
    (hrd : B.readPropsFn name = Except.ok current)
    (hset : ∀ p ∈ diffPairs current props,
      B.setFn name p.1 p.2 = Except.ok ()) :
    ((ZpoolEngine.update_properties B name props).2).countP
        (isSetFor "comment") =
      if current.comment ≠
          (if props.comment.isEmpty then none else some props.comment) then
        1 else 0 := by
  rw [update_properties_ok B name props current hex hrd hset]
  simp only [List.countP_cons, List.countP_append, countP_setFor_map,
    diffPairs_comment_count]
  simp [isSetFor]

/-- Claim C1: when the pool exists and the backend's reads and sets
succeed, `update_properties` issues a `set_unchecked` call for an
attribute if and only if the current value differs from the desired value
under that attribute's own equality; the set calls appear in the fixed
order auto-expand, auto-replace, cache-file, comment, delegation,
fail-mode, the number of set calls equals the number of differing
attributes, and attributes whose values are equal are never touched. -/
theorem c1_update_properties_diff (B : Backend) (name : String)
    (props : ZpoolPropertiesWrite) (current : ZpoolProperties)
    (hex : B.existsFn name = Except.ok true)
    (hrd : B.readPropsFn name = Except.ok current)
    (hset : ∀ p ∈ diffPairs current props,
      B.setFn name p.1 p.2 = Except.ok ()) :
    ((ZpoolEngine.update_properties B name props).2.filter isSetCall =
      (diffPairs current props).map
        (fun p => BackendCall.setCall name p.1 p.2)) ∧
    (((ZpoolEngine.update_properties B name props).2.filter
        isSetCall).length =
      (diffPairs current props).length) ∧
    (∀ (key : String) (v : PropValue),
      BackendCall.setCall name key v ∈
          (ZpoolEngine.update_properties B name props).2 ↔
        (key, v) ∈ diffPairs current props) := by
  rw [update_properties_ok B name props current hex hrd hset]
  refine ⟨?_, ?_, ?_⟩
  · simp [isSetCall, List.filter_append, filter_isSetCall_map]
  · simp [isSetCall, List.filter_append, filter_isSetCall_map]
  · intro key v
    simp [List.mem_map]

/-- Witness for C1: on a concrete backend and records differing in
auto-expand, comment and fail-mode, the set-call trace is exactly the
mapped diff list. -/
theorem c1_update_properties_diff_witness :
    (ZpoolEngine.update_properties wOkBackend "tank" wProps).2.filter
        isSetCall =
      (diffPairs wCurrent wProps).map
        (fun p => BackendCall.setCall "tank" p.1 p.2) :=
  (c1_update_properties_diff wOkBackend "tank" wProps wCurrent rfl rfl
    (fun _ _ => rfl)).1

/-- Claim C4: an empty desired comment is compared as absent: with the
pool's comment unset and an empty desired comment no comment set call is
issued; with an empty desired comment but a comment currently set, or a
non-empty desired comment differing from the current one, exactly one
comment set call is issued. -/
theorem c4_comment_empty_absent (B : Backend) (name : String)
    (props : ZpoolPropertiesWrite) (current : ZpoolProperties)
    (hex : B.existsFn name = Except.ok true)
    (hrd : B.readPropsFn name = Except.ok current)
    (hset : ∀ p ∈ diffPairs current props,
      B.setFn name p.1 p.2 = Except.ok ()) :
    (props.comment = "" → current.comment = none →
      ((ZpoolEngine.update_properties B name props).2).countP
        (isSetFor "comment") = 0) ∧
    (props.comment = "" → current.comment ≠ none →
      ((ZpoolEngine.update_properties B name props).2).countP
        (isSetFor "comment") = 1) ∧
    (props.comment ≠ "" → current.comment ≠ some props.comment →
      ((ZpoolEngine.update_properties B name props).2).countP
        (isSetFor "comment") = 1) := by
  rw [update_properties_comment_count B name props current hex hrd hset]
  refine ⟨?_, ?_, ?_⟩ <;> intro h1 h2
  · simp [h1, h2, String.isEmpty_iff]
  · simp [h1, h2, String.isEmpty_iff]
  · have he : props.comment.isEmpty = false := by
      cases hc : props.comment.isEmpty
      · rfl
      · exact absurd ((String.isEmpty_iff props.comment).mp hc) h1
    simp [he, h2]

/-- Witness for C4: with the comment left at its empty default and no
comment currently set, no comment set call is issued. -/
theorem c4_comment_empty_absent_witness :
    ((ZpoolEngine.update_properties wOkBackend "tank" wEmptyProps).2).countP
        (isSetFor "comment") = 0 :=
  (c4_comment_empty_absent wOkBackend "tank" wEmptyProps wCurrent rfl rfl
    (fun _ _ => rfl)).1 rfl rfl

/-- Claim C5: if the set call for the k-th differing attribute fails, the
error is returned to the caller and the trace ends at the failing call:
the set calls for later attributes in the fixed order are never
attempted, no rollback call is issued, and no final re-read happens. -/
theorem c5_partial_failure (B : Backend) (name : String)
    (props : ZpoolPropertiesWrite) (current : ZpoolProperties)
    (pre : List (String × PropValue)) (k : String) (v : PropValue)
    (post : List (String × PropValue)) (e : ZpoolError)
    (hex : B.existsFn name = Except.ok true)
    (hrd : B.readPropsFn name = Except.ok current)
    (hsplit : diffPairs current props = pre ++ (k, v) :: post)
    (hpre : ∀ p ∈ pre, B.setFn name p.1 p.2 = Except.ok ())
    (hk : B.setFn name k v = Except.error e) :
    ZpoolEngine.update_properties B name props =
      (Except.error e,
       BackendCall.existsCall name :: BackendCall.readPropsCall name ::
        (pre ++ [(k, v)]).map (fun p => BackendCall.setCall name p.1 p.2)) :=
  update_properties_err B name props current pre k v post e hex hrd hsplit
    hpre hk

/-- Witness for C5: with three differing attributes and the comment set
failing, the auto-expand set is issued, the failure is returned, and the
fail-mode set and the re-read are never attempted. -/
theorem c5_partial_failure_witness :
    ZpoolEngine.update_properties wSetFailBackend "tank" wProps =
      (Except.error (ZpoolError.Other "boom"),
       BackendCall.existsCall "tank" :: BackendCall.readPropsCall "tank" ::
        ([("autoexpand", PropValue.b true)] ++
          [("comment", PropValue.s "hi")]).map
          (fun p => BackendCall.setCall "tank" p.1 p.2)) :=
  c5_partial_failure wSetFailBackend "tank" wProps wCurrent
    [("autoexpand", PropValue.b true)] "comment" (PropValue.s "hi")
    [("failmode", PropValue.fm FailMode.Panic)] (ZpoolError.Other "boom")
    rfl rfl (by decide)
    (fun p hp => by rw [List.mem_singleton.mp hp]; rfl) rfl

/-- Claim C3: on a name for which `exists` returns `Ok(false)`, each of
destroy, export, read_properties, status and update_properties returns
`PoolNotFound`, and the backend trace holds the existence check alone —
the corresponding unchecked primitive is never invoked. -/
theorem c3_guard_short_circuit (B : Backend) (name : String) (force : Bool)
    (props : ZpoolPropertiesWrite)
    (hex : B.existsFn name = Except.ok false) :
    ZpoolEngine.destroy B name force =
      (Except.error ZpoolError.PoolNotFound, [BackendCall.existsCall name]) ∧
    ZpoolEngine.exportPool B name force =
      (Except.error ZpoolError.PoolNotFound, [BackendCall.existsCall name]) ∧
    ZpoolEngine.read_properties B name =
      (Except.error ZpoolError.PoolNotFound, [BackendCall.existsCall name]) ∧
    ZpoolEngine.status B name =
      (Except.error ZpoolError.PoolNotFound, [BackendCall.existsCall name]) ∧
    ZpoolEngine.update_properties B name props =
      (Except.error ZpoolError.PoolNotFound, [BackendCall.existsCall name]) := by
  refine ⟨?_, ?_, ?_, ?_, ?_⟩ <;>
    simp [ZpoolEngine.destroy, ZpoolEngine.exportPool,
      ZpoolEngine.read_properties, ZpoolEngine.status,
      ZpoolEngine.update_properties, effBind, callExists, hex]

/-- Witness for C3: on a backend without pools, destroying a pool yields
`PoolNotFound` after the existence check alone. -/
theorem c3_guard_short_circuit_witness :
    ZpoolEngine.destroy wNoBackend "tank" true =
      (Except.error ZpoolError.PoolNotFound,
       [BackendCall.existsCall "tank"]) :=
  (c3_guard_short_circuit wNoBackend "tank" true wProps rfl).1

/-- Claim C10: when the existence check itself fails, each guarded
operation returns that error unchanged — not `PoolNotFound` — and the
backend trace holds the existence check alone: the unchecked primitive is
never invoked. -/
theorem c10_exists_error_propagates (B : Backend) (name : String)
    (force : Bool) (props : ZpoolPropertiesWrite) (e : ZpoolError)
    (hex : B.existsFn name = Except.error e) :
    ZpoolEngine.destroy B name force =
      (Except.error e, [BackendCall.existsCall name]) ∧
    ZpoolEngine.exportPool B name force =
      (Except.error e, [BackendCall.existsCall name]) ∧
    ZpoolEngine.read_properties B name =
      (Except.error e, [BackendCall.existsCall name]) ∧
    ZpoolEngine.status B name =
      (Except.error e, [BackendCall.existsCall name]) ∧
    ZpoolEngine.update_properties B name props =
      (Except.error e, [BackendCall.existsCall name]) := by
  refine ⟨?_, ?_, ?_, ?_, ?_⟩ <;>
    simp [ZpoolEngine.destroy, ZpoolEngine.exportPool,
      ZpoolEngine.read_properties, ZpoolEngine.status,
      ZpoolEngine.update_properties, effBind, callExists, hex]

/-- Witness for C10: an I/O failure of the existence check is returned
as-is by `status` with no further backend call. -/
theorem c10_exists_error_propagates_witness :
    ZpoolEngine.status wExistsErrBackend "tank" =
      (Except.error (ZpoolError.Io ⟨IoErrorKind.OtherKind 0, "boom"⟩),
       [BackendCall.existsCall "tank"]) :=
  (c10_exists_error_propagates wExistsErrBackend "tank" true wProps
    (ZpoolError.Io ⟨IoErrorKind.OtherKind 0, "boom"⟩) rfl).2.2.2.1

/-- Claim C6: `create` with a topology whose validity predicate is false
returns `InvalidTopology` without any backend call; with a valid topology
it delegates to `create_unchecked` and returns its result unmodified. -/
theorem c6_create_guard (B : Backend) (name : String) (topology : Topology)
    (props : Option ZpoolPropertiesWrite) (mount altRoot : Option String) :
    (topology.is_suitable_for_create = false →
      ZpoolEngine.create B name topology props mount altRoot =
        (Except.error ZpoolError.InvalidTopology, [])) ∧
    (topology.is_suitable_for_create = true →
      ZpoolEngine.create B name topology props mount altRoot =
        (B.createFn name topology props mount altRoot,
         [BackendCall.createCall name topology props mount altRoot])) := by
  constructor <;> intro h <;> simp [ZpoolEngine.create, h, callCreate]

/-- Witness for C6: an unsuitable topology is rejected with
`InvalidTopology` and no backend call. -/
theorem c6_create_guard_witness :
    ZpoolEngine.create wOkBackend "tank" ⟨false⟩ none none none =
      (Except.error ZpoolError.InvalidTopology, []) :=
  (c6_create_guard wOkBackend "tank" ⟨false⟩ none none none).1 rfl

/-- Claim C8: translating a generic I/O failure maps the `NotFound` kind
to `CmdNotFound` and every other I/O failure to `Io` carrying the
original failure. -/
theorem c8_io_translation (err : IoError) :
    (err.kind = IoErrorKind.NotFound →
      ZpoolError.fromIoError err = ZpoolError.CmdNotFound) ∧
    (err.kind ≠ IoErrorKind.NotFound →
      ZpoolError.fromIoError err = ZpoolError.Io err) := by
  constructor <;> intro h
  · simp [ZpoolError.fromIoError, h]
  · cases hk : err.kind with
    | NotFound => exact absurd hk h
    | OtherKind n => simp [ZpoolError.fromIoError, hk]

/-- Witness for C8: the two fixtures of the repository's `io_error_from`
test. -/
theorem c8_io_translation_witness :
    ZpoolError.fromIoError ⟨IoErrorKind.NotFound, "oh no"⟩ =
      ZpoolError.CmdNotFound ∧
    ZpoolError.fromIoError ⟨IoErrorKind.OtherKind 0, "oh now"⟩ =
      ZpoolError.Io ⟨IoErrorKind.OtherKind 0, "oh now"⟩ :=
  ⟨(c8_io_translation ⟨IoErrorKind.NotFound, "oh no"⟩).1 rfl,
   (c8_io_translation ⟨IoErrorKind.OtherKind 0, "oh now"⟩).2 (by decide)⟩

/-- Claim C9: the kind projection reaches exactly the nine kinds
`CmdNotFound` (command not found), `Io` (I/O failure), `PoolNotFound`,
`InvalidTopology`, `VdevReuse`, `ParseError` (parse failure),
`DeviceTooSmall`, `PermissionDenied` and `Other` (unclassified): every
error's kind is one of the nine, each of the nine is reached, and the
kind depends only on the constructor tag, never on a payload. -/
theorem c9_kind_projection :
    (∀ e : ZpoolError, e.kind ∈ [ZpoolErrorKind.CmdNotFound,
      ZpoolErrorKind.Io, ZpoolErrorKind.PoolNotFound,
      ZpoolErrorKind.InvalidTopology, ZpoolErrorKind.VdevReuse,
      ZpoolErrorKind.ParseError, ZpoolErrorKind.DeviceTooSmall,
      ZpoolErrorKind.PermissionDenied, ZpoolErrorKind.Other]) ∧
    (∀ k ∈ [ZpoolErrorKind.CmdNotFound,
      ZpoolErrorKind.Io, ZpoolErrorKind.PoolNotFound,
      ZpoolErrorKind.InvalidTopology, ZpoolErrorKind.VdevReuse,
      ZpoolErrorKind.ParseError, ZpoolErrorKind.DeviceTooSmall,
      ZpoolErrorKind.PermissionDenied, ZpoolErrorKind.Other],
      ∃ e : ZpoolError, e.kind = k) ∧
    (∀ e₁ e₂ : ZpoolError, e₁.ctorTag = e₂.ctorTag →
      e₁.kind = e₂.kind) := by
  refine ⟨?_, ?_, ?_⟩
  · intro e; cases e <;> simp [ZpoolError.kind]
  · intro k hk
    simp only [List.mem_cons, List.not_mem_nil, or_false] at hk
    rcases hk with rfl | rfl | rfl | rfl | rfl | rfl | rfl | rfl | rfl
    exacts [⟨ZpoolError.CmdNotFound, rfl⟩,
      ⟨ZpoolError.Io ⟨IoErrorKind.NotFound, ""⟩, rfl⟩,
      ⟨ZpoolError.PoolNotFound, rfl⟩, ⟨ZpoolError.InvalidTopology, rfl⟩,
      ⟨ZpoolError.VdevReuse "" "", rfl⟩, ⟨ZpoolError.ParseError, rfl⟩,
      ⟨ZpoolError.DeviceTooSmall, rfl⟩, ⟨ZpoolError.PermissionDenied, rfl⟩,
      ⟨ZpoolError.Other "", rfl⟩]
  · intro e₁ e₂ h
    cases e₁ <;> cases e₂ <;>
      simp_all [ZpoolError.ctorTag, ZpoolError.kind]

/-- Witness for C9: the kind of a parse error is among the nine, and the
kinds of two unclassified errors with different payloads agree. -/
theorem c9_kind_projection_witness :
    ZpoolError.ParseError.kind ∈ [ZpoolErrorKind.CmdNotFound,
      ZpoolErrorKind.Io, ZpoolErrorKind.PoolNotFound,
      ZpoolErrorKind.InvalidTopology, ZpoolErrorKind.VdevReuse,
      ZpoolErrorKind.ParseError, ZpoolErrorKind.DeviceTooSmall,
      ZpoolErrorKind.PermissionDenied, ZpoolErrorKind.Other] ∧
    (ZpoolError.Other "a").kind = (ZpoolError.Other "b").kind :=
  ⟨c9_kind_projection.1 ZpoolError.ParseError,
   c9_kind_projection.2.2 (ZpoolError.Other "a") (ZpoolError.Other "b") rfl⟩

/-- Claim C2: `from_stderr` classifies every decoded text (the lossy
UTF-8 decode is total, so classification never fails) by testing the
patterns in the fixed priority order rich vdev-reuse with captures, ZoL
vdev-reuse with empty placeholders, device-too-small, permission-denied;
the first matching pattern determines the result, and if none matches the
result is the unclassified variant carrying the full decoded text. -/
theorem c2_classifier_priority (s : List Char) :
    ZpoolError.from_stderr s = classifySpec s := by
  unfold ZpoolError.from_stderr classifySpec specClassifiers
  cases hre : reSearch RE_REUSE_VDEV s with
  | some caps => simp [List.findSome?, hre]
  | none =>
    simp only [List.findSome?, hre, Option.map_none, reIsMatch]
    split_ifs <;> rfl

/-- Claim C7: an input matching the rich vdev-reuse pattern is classified
as `VdevReuse` carrying the exact captured path and pool substrings. -/
theorem c7_reuse_captures (s p q : List Char)
    (h : reSearch RE_REUSE_VDEV s = some [p, q]) :
    ZpoolError.from_stderr s =
      ZpoolError.VdevReuse (String.mk p) (String.mk q) := by
  unfold ZpoolError.from_stderr
  rw [h]
  simp

set_option maxRecDepth 100000 in
/-- Witness for C7: the repository's vdev-reuse fixture containing
`following errors:` and `/vdevs/vdev0 is part of active pool 'tank'`
yields `VdevReuse` with vdev `/vdevs/vdev0` and pool `tank`. -/
theorem c7_reuse_captures_witness :
    ZpoolError.from_stderr fxReuse =
      ZpoolError.VdevReuse (String.mk "/vdevs/vdev0".data)
        (String.mk "tank".data) :=
  c7_reuse_captures fxReuse "/vdevs/vdev0".data "tank".data (by decide)

end LibZfs
